import Mathlib

/-
Verification of the ChromaticBlur plugin (`dist/chromatic-blur.js`).

The development shallowly embeds the plugin's state and methods:

* an element is modelled by the inline style properties the plugin reads or
  writes, its stylesheet-level position (giving a computed position), and its
  list of child nodes;
* DOM node identity is modelled by natural-number tokens, so that `node.remove()`
  on an already-detached node is a no-op, exactly as in the DOM;
* the process-wide state (the shared `#chromatic-blur-filters` SVG container
  with its `<defs>` child, and the static `ChromaticBlur.instances` set) is a
  `Globals` record;
* each class method becomes a pure state-transformation function.

Numbers in the configuration are modelled as rationals.
-/

namespace ChromaticBlur

/-- Inline style record of a DOM element, restricted to the properties the
plugin reads or writes.  The empty string models an unset inline property,
as in the CSSOM. -/
structure ElemStyle where
  backdropFilter : String := ""
  webkitBackdropFilter : String := ""
  position : String := ""
  overflow : String := ""
  boxShadow : String := ""
  backgroundColor : String := ""
deriving DecidableEq, Repr

/-- Kind of a child node of the target element: the overlay container built by
`_addOverlays` (recording which decorative layers it holds), the Firefox
fallback background layer built by `_addFirefoxFallback`, or pre-existing
content. -/
inductive NodeKind where
  | overlayContainer (noise : Bool) (gradient : Bool)
  | firefoxBg
  | content
deriving DecidableEq, Repr

/-- Inline style of a child node, restricted to the properties touched by
`_addFirefoxFallback`'s child promotion loop. -/
structure ChildStyle where
  position : String := ""
  zIndex : String := ""
deriving DecidableEq, Repr

/-- A child node of the target element.  `tok` is the DOM node identity. -/
structure Child where
  tok : Nat
  kind : NodeKind
  style : ChildStyle := {}
  cssPosition : String := "static"
deriving DecidableEq, Repr

/-- The target DOM element: inline style, the position contributed by
stylesheets (used when no inline position is set), and its children
(first child at the head of the list). -/
structure Element where
  style : ElemStyle := {}
  cssPosition : String := "static"
  children : List Child := []
deriving DecidableEq, Repr

/-- Model of `window.getComputedStyle(element).position`: the inline position when set,
otherwise the stylesheet value. -/
def computedPosition (el : Element) : String :=
  if el.style.position ≠ "" then el.style.position else el.cssPosition

/-- Computed position of a child node, same cascade model. -/
def childComputedPosition (c : Child) : String :=
  if c.style.position ≠ "" then c.style.position else c.cssPosition

/-- The merged per-instance configuration (`this.options`); every field is
always populated. -/
structure Options where
  redOffset : Rat
  blueOffset : Rat
  blurAmount : Rat
  turbulenceFrequency : Rat
  displacementScale : Rat
  borderColor : String
  addOverlay : Bool
  addNoise : Bool
deriving DecidableEq, Repr

/-- A partial configuration as passed by the caller: each field optional. -/
structure PartialOptions where
  redOffset : Option Rat := none
  blueOffset : Option Rat := none
  blurAmount : Option Rat := none
  turbulenceFrequency : Option Rat := none
  displacementScale : Option Rat := none
  borderColor : Option String := none
  addOverlay : Option Bool := none
  addNoise : Option Bool := none
deriving DecidableEq, Repr

/-- Static `ChromaticBlur.defaults` (lines 35-44 of the source). -/
def defaults : Options where
  redOffset := 5
  blueOffset := -5
  blurAmount := 3
  turbulenceFrequency := 1/1000
  displacementScale := 50
  borderColor := "rgba(156, 156, 156, 0.2)"
  addOverlay := true
  addNoise := true

/-- Object spread `{ ...base, ...p }`: field-by-field override of `base` by
the supplied fields of `p`. -/
def mergeOptions (base : Options) (p : PartialOptions) : Options where
  redOffset := p.redOffset.getD base.redOffset
  blueOffset := p.blueOffset.getD base.blueOffset
  blurAmount := p.blurAmount.getD base.blurAmount
  turbulenceFrequency := p.turbulenceFrequency.getD base.turbulenceFrequency
  displacementScale := p.displacementScale.getD base.displacementScale
  borderColor := p.borderColor.getD base.borderColor
  addOverlay := p.addOverlay.getD base.addOverlay
  addNoise := p.addNoise.getD base.addNoise

/-- One SVG filter primitive of the filter graph set by
`filter.innerHTML = ...` in `_createFilter`. -/
inductive Stage where
  | feTurbulence (baseFrequency : Rat) (numOctaves : Nat) (ty : String) (result : String)
  | feOffset (inp : String) (dx : Rat) (dy : Rat) (result : String)
  | feColorMatrix (inp : String) (values : String) (result : String)
  | feComposite (inp : String) (in2 : String) (op : String) (k2 : Rat) (k3 : Rat) (result : String)
  | feDisplacementMap (inp : String) (in2 : String) (scale : Rat) (result : String)
  | feGaussianBlur (inp : String) (stdDeviation : Rat) (result : String)
deriving DecidableEq, Repr

/-- Color-matrix values isolating the red channel while keeping alpha. -/
def redMatrix : String :=
  "1 0 0 0 0\n                0 0 0 0 0\n                0 0 0 0 0\n                0 0 0 1 0"

/-- Color-matrix values isolating the green channel while keeping alpha. -/
def greenMatrix : String :=
  "0 0 0 0 0\n                0 1 0 0 0\n                0 0 0 0 0\n                0 0 0 1 0"

/-- Color-matrix values isolating the blue channel while keeping alpha. -/
def blueMatrix : String :=
  "0 0 0 0 0\n                0 0 0 0 0\n                0 0 1 0 0\n                0 0 0 1 0"

/-- The filter pipeline built by `_createFilter` from the current options
(lines 143-221 of the source), in document order. -/
def createFilterStages (o : Options) : List Stage :=
  [ Stage.feTurbulence o.turbulenceFrequency 1 "turbulence" "turbulence"
  , Stage.feOffset "SourceGraphic" o.redOffset 0 "redOffset"
  , Stage.feColorMatrix "redOffset" redMatrix "red"
  , Stage.feColorMatrix "SourceGraphic" greenMatrix "green"
  , Stage.feOffset "SourceGraphic" o.blueOffset 0 "blueOffset"
  , Stage.feColorMatrix "blueOffset" blueMatrix "blue"
  , Stage.feComposite "red" "green" "arithmetic" 1 1 "redGreen"
  , Stage.feComposite "redGreen" "blue" "arithmetic" 1 1 "colorSplit"
  , Stage.feDisplacementMap "colorSplit" "turbulence" o.displacementScale "displacement"
  , Stage.feGaussianBlur "displacement" o.blurAmount "blurred" ]

/-- An SVG `<filter>` node as built by `_createFilter`. -/
structure Filter where
  id : String
  x : String := "-50%"
  y : String := "-50%"
  width : String := "200%"
  height : String := "200%"
  stages : List Stage := []
deriving DecidableEq, Repr

/-- The complete filter node `_createFilter` builds for id `i` and options
`o`. -/
def mkFilter (i : String) (o : Options) : Filter where
  id := i
  stages := createFilterStages o

/-- Process-wide state: the shared SVG container (`#chromatic-blur-filters`)
with the filter nodes inside its `<defs>`, the static
`ChromaticBlur.instances` set (as instance tokens), and a fresh-token
supply modelling DOM node allocation. -/
structure Globals where
  registryPresent : Bool := false
  defs : List (Nat × Filter) := []
  instances : List Nat := []
  nextTok : Nat := 0
deriving DecidableEq, Repr

/-- The four style properties snapshotted at construction
(`this.originalStyles`, lines 74-79). -/
structure OrigStyles where
  backdropFilter : String
  webkitBackdropFilter : String
  position : String
  overflow : String
deriving DecidableEq, Repr

/-- The per-instance fields of a `ChromaticBlur` object.  `tok` is the object
identity used by the `instances` set; the `Option Nat` fields are the node
references `this.filter`, `this.overlayContainer`, `this.firefoxBg` (never
cleared by `destroy`, exactly as in the source). -/
structure Instance where
  tok : Nat
  id : String
  options : Options
  originalStyles : OrigStyles
  filter : Option Nat := none
  overlayContainer : Option Nat := none
  firefoxBg : Option Nat := none
deriving DecidableEq, Repr

/-- The host environment as observed by `_addFirefoxFallback`:
user-agent sniffing result and the backdrop-filter feature probe. -/
structure Env where
  isFirefox : Bool
  backdropFilterSupported : Bool
deriving DecidableEq, Repr

/-- Condition `isFirefox || !backdropFilterSupported` under which the
fallback branch runs (line 267). -/
def fallbackMode (env : Env) : Bool :=
  env.isFirefox || !env.backdropFilterSupported

/-- Combined mutable state seen by an instance method: the globals, the
instance's own fields, and its target element. -/
structure W where
  g : Globals
  inst : Instance
  el : Element
deriving DecidableEq, Repr

/-- Method `_ensureSVGContainer` (lines 112-129): create the shared container with an
empty `<defs>` if absent; no side effect if present. -/
def ensureSVGContainer (g : Globals) : Globals :=
  if g.registryPresent then g else { g with registryPresent := true, defs := [] }

/-- Method `_createFilter` (lines 135-225): build the filter node from the current
options and append it to the `<defs>`; remember it in `this.filter`. -/
def createFilter (w : W) : W :=
  let tok := w.g.nextTok
  let f := mkFilter w.inst.id w.inst.options
  { w with
    g := { w.g with defs := w.g.defs ++ [(tok, f)], nextTok := tok + 1 }
    inst := { w.inst with filter := some tok } }

/-- The style reference string for a filter id. -/
def filterUrl (i : String) : String := "url(#" ++ i ++ ")"

/-- The inset box-shadow applied by `_applyStyles` (line 242). -/
def insetBoxShadow (c : String) : String := "0 0 0 1px " ++ c ++ " inset"

/-- The box-shadow template string set by the fallback branch (lines 272-275),
whitespace as in the source template literal. -/
def fallbackBoxShadow (c : String) : String :=
  "\n        0 0 0 1px " ++ c ++ " inset,\n        0 4px 12px rgba(0, 0, 0, 0.15)\n      "

/-- The fallback background layer node created at lines 278-291: its cssText
sets `position: absolute` and `z-index: 0`. -/
def fallbackChild (tok : Nat) : Child where
  tok := tok
  kind := NodeKind.firefoxBg
  style := { position := "absolute", zIndex := "0" }

/-- The child promotion loop of `_addFirefoxFallback` (lines 298-305): give a
pre-existing child `position: relative` if its computed position is static,
and `z-index: 1` if none is set. -/
def promoteChild (c : Child) : Child :=
  let c1 := if childComputedPosition c = "static"
    then { c with style := { c.style with position := "relative" } } else c
  if c1.style.zIndex = "" ∨ c1.style.zIndex = "auto"
    then { c1 with style := { c1.style with zIndex := "1" } } else c1

/-- Method `_addFirefoxFallback` (lines 258-309): in an unsupported environment, set
the substitute background and box-shadow, insert a fresh blurred background
layer as first child, promote the pre-existing children, and remember the
layer in `this.firefoxBg`.  Otherwise do nothing. -/
def addFirefoxFallback (env : Env) (w : W) : W :=
  if fallbackMode env then
    let tok := w.g.nextTok
    { g := { w.g with nextTok := tok + 1 }
      inst := { w.inst with firefoxBg := some tok }
      el :=
        { w.el with
          style := { w.el.style with
            backgroundColor := "rgba(255, 255, 255, 0.85)"
            boxShadow := fallbackBoxShadow w.inst.options.borderColor }
          children := fallbackChild tok :: w.el.children.map promoteChild } }
  else w

/-- Method `_applyStyles` (lines 231-252): set the backdrop-filter references,
`overflow: hidden` and the inset box-shadow; set `position: relative` only if
the computed position is static; then run fallback detection. -/
def applyStyles (env : Env) (w : W) : W :=
  let url := filterUrl w.inst.id
  let needsPosition := computedPosition w.el = "static"
  let st1 := { w.el.style with
    backdropFilter := url
    webkitBackdropFilter := url
    overflow := "hidden"
    boxShadow := insetBoxShadow w.inst.options.borderColor }
  let st2 := if needsPosition then { st1 with position := "relative" } else st1
  addFirefoxFallback env { w with el := { w.el with style := st2 } }

/-- Method `_addOverlays` (lines 315-367): build the overlay container (holding a
noise layer if `addNoise` and a gradient layer if `addOverlay`), insert it as
first child, and remember it in `this.overlayContainer`.  Its cssText sets
`position: absolute` and no z-index. -/
def addOverlays (w : W) : W :=
  let tok := w.g.nextTok
  let oc : Child :=
    { tok := tok
      kind := NodeKind.overlayContainer w.inst.options.addNoise w.inst.options.addOverlay
      style := { position := "absolute", zIndex := "" } }
  { g := { w.g with nextTok := tok + 1 }
    inst := { w.inst with overlayContainer := some tok }
    el := { w.el with children := oc :: w.el.children } }

/-- The constructor body after the target check (lines 67-85): merge options,
snapshot original styles, run `_init` (ensure container, create filter, apply
styles, conditionally add overlays), then register in the instance set. -/
def constructValid (env : Env) (g0 : Globals) (el0 : Element)
    (popts : PartialOptions) (i : String) : W :=
  let options := mergeOptions defaults popts
  let orig : OrigStyles :=
    { backdropFilter := el0.style.backdropFilter
      webkitBackdropFilter := el0.style.webkitBackdropFilter
      position := el0.style.position
      overflow := el0.style.overflow }
  let itok := g0.nextTok
  let w0 : W :=
    { g := ensureSVGContainer { g0 with nextTok := itok + 1 }
      inst := { tok := itok, id := i, options := options, originalStyles := orig }
      el := el0 }
  let w1 := createFilter w0
  let w2 := applyStyles env w1
  let w3 := if options.addOverlay || options.addNoise then addOverlays w2 else w2
  { w3 with g := { w3.g with instances := itok :: w3.g.instances } }

/-- The error thrown by the constructor on target-resolution failure
(`InvalidTargetError` in the specification's taxonomy). -/
inductive CBError where
  | invalidTarget
deriving DecidableEq, Repr

/-- The constructor's target argument: a CSS selector or an element reference
(possibly null/undefined). -/
inductive ElementRef where
  | selector (s : String)
  | ref (e : Option Element)
deriving DecidableEq

/-- Target resolution (lines 59-61): a selector is looked up with
`document.querySelector` (modelled by `query`); an element reference is used
directly. -/
def resolveTarget (query : String → Option Element) : ElementRef → Option Element
  | ElementRef.selector s => query s
  | ElementRef.ref e => e

/-- The full constructor (lines 57-86): resolve the target; throw before any
other action if it is missing, otherwise run the construction.  The returned
`Globals` is the process-wide state after the call, error or not. -/
def construct (env : Env) (query : String → Option Element) (g : Globals)
    (target : ElementRef) (popts : PartialOptions) (i : String) :
    Globals × Except CBError (Instance × Element) :=
  match resolveTarget query target with
  | none => (g, Except.error CBError.invalidTarget)
  | some el =>
    let w := constructValid env g el popts i
    (w.g, Except.ok (w.inst, w.el))

/-- Effect of `node && node.remove()` for a filter node reference: detach the referenced
node from the `<defs>` list; a no-op when the reference is unset or the node
is already detached. -/
def removeFilterNode (o : Option Nat) (l : List (Nat × Filter)) : List (Nat × Filter) :=
  match o with
  | some t => l.filter (fun p => p.1 ≠ t)
  | none => l

/-- Effect of `node && node.remove()` for a child node reference: detach the referenced
child from the element; a no-op when the reference is unset or the node is
already detached. -/
def removeChildNode (o : Option Nat) (l : List Child) : List Child :=
  match o with
  | some t => l.filter (fun c => c.tok ≠ t)
  | none => l

/-- Effect of `Object.assign(this.element.style, this.originalStyles)` (line 408):
restore exactly the four snapshotted properties, leaving the others as they
are. -/
def restoreStyle (st : ElemStyle) (o : OrigStyles) : ElemStyle :=
  { st with
    backdropFilter := o.backdropFilter
    webkitBackdropFilter := o.webkitBackdropFilter
    position := o.position
    overflow := o.overflow }

/-- Lines 414-419: if no instance remains, look the shared container up and
remove it (with everything inside) when found. -/
def releaseIfEmpty (g : Globals) : Globals :=
  if g.instances.isEmpty then
    if g.registryPresent then { g with registryPresent := false, defs := [] } else g
  else g

/-- Method `update` (lines 374-386): merge the new options over the current ones,
remove the current filter node, rebuild it, and reapply styles (which reruns
fallback detection). -/
def update (env : Env) (w : W) (popts : PartialOptions) : W :=
  let w1 : W := { w with inst := { w.inst with options := mergeOptions w.inst.options popts } }
  let w2 : W := { w1 with g := { w1.g with defs := removeFilterNode w1.inst.filter w1.g.defs } }
  applyStyles env (createFilter w2)

/-- Method `destroy` (lines 391-420): remove the filter node, overlay container and
fallback layer if present (no-ops on already-detached nodes), restore the four
snapshotted style properties, unregister from the instance set, and remove the
shared container if no instances remain.  The node references on the instance
are not cleared, exactly as in the source. -/
def destroy (w : W) : W :=
  let g1 := { w.g with defs := removeFilterNode w.inst.filter w.g.defs }
  let ch := removeChildNode w.inst.firefoxBg
    (removeChildNode w.inst.overlayContainer w.el.children)
  let st := restoreStyle w.el.style w.inst.originalStyles
  let g2 := { g1 with instances := g1.instances.erase w.inst.tok }
  { g := releaseIfEmpty g2, inst := w.inst, el := { w.el with style := st, children := ch } }

/-- Method `enable` (lines 426-430): point both backdrop-filter properties back at
the filter reference. -/
def enable (w : W) : W :=
  { w with el := { w.el with style := { w.el.style with
      backdropFilter := filterUrl w.inst.id
      webkitBackdropFilter := filterUrl w.inst.id } } }

/-- Method `disable` (lines 436-440): set both backdrop-filter properties to
`none`. -/
def disable (w : W) : W :=
  { w with el := { w.el with style := { w.el.style with
      backdropFilter := "none"
      webkitBackdropFilter := "none" } } }

/-- Whether a child node is an overlay container. -/
def Child.isOverlay (c : Child) : Bool :=
  match c.kind with
  | NodeKind.overlayContainer _ _ => true
  | _ => false

/-- Whether a child node is a fallback background layer. -/
def Child.isFallback (c : Child) : Bool :=
  match c.kind with
  | NodeKind.firefoxBg => true
  | _ => false

/-- Number of overlay container children of an element. -/
def countOverlay (el : Element) : Nat := el.children.countP Child.isOverlay

/-- Number of fallback background children of an element. -/
def countFallback (el : Element) : Nat := el.children.countP Child.isFallback

/-- The standard deviations of the Gaussian-blur stages of a filter, in
order. -/
def blurStds (f : Filter) : List Rat :=
  f.stages.filterMap fun s => match s with
    | Stage.feGaussianBlur _ std _ => some std
    | _ => none

/-- The horizontal offsets of the offset stages with a given result name. -/
def offsetDxs (res : String) (f : Filter) : List Rat :=
  f.stages.filterMap fun s => match s with
    | Stage.feOffset _ dx _ r => if r = res then some dx else none
    | _ => none

/-- The base frequencies of the turbulence stages of a filter. -/
def turbulenceFreqs (f : Filter) : List Rat :=
  f.stages.filterMap fun s => match s with
    | Stage.feTurbulence bf _ _ _ => some bf
    | _ => none

/-- The scales of the displacement-map stages of a filter. -/
def displacementScales (f : Filter) : List Rat :=
  f.stages.filterMap fun s => match s with
    | Stage.feDisplacementMap _ _ sc _ => some sc
    | _ => none

/-- One public operation on the running system.  A `construct` carries the
already-resolved target (`none` models a failed resolution, whose exception
leaves the state untouched); the other operations address an instance by its
index among all instances ever constructed. -/
inductive Op where
  | construct (env : Env) (target : Option Element) (popts : PartialOptions)
  | update (i : Nat) (env : Env) (popts : PartialOptions)
  | enable (i : Nat)
  | disable (i : Nat)
  | destroy (i : Nat)

/-- Whole-system state: the globals plus every instance ever constructed with
its target element.  Destroyed instances stay addressable (their objects
survive in JS), which lets the machine exercise double destroys and
post-destroy calls. -/
structure Sys where
  g : Globals
  insts : List (Instance × Element)

/-- The initial system: no container, no instances. -/
def initSys : Sys := { g := {}, insts := [] }

/-- Execute one operation on the system. -/
def stepOp (s : Sys) : Op → Sys
  | Op.construct _ none _ => s
  | Op.construct env (some el) p =>
    let w := constructValid env s.g el p ("chromatic-blur-" ++ toString s.g.nextTok)
    { g := w.g, insts := s.insts ++ [(w.inst, w.el)] }
  | Op.update i env p =>
    match s.insts[i]? with
    | none => s
    | some (inst, el) =>
      let w := update env ⟨s.g, inst, el⟩ p
      { g := w.g, insts := s.insts.set i (w.inst, w.el) }
  | Op.enable i =>
    match s.insts[i]? with
    | none => s
    | some (inst, el) =>
      let w := enable ⟨s.g, inst, el⟩
      { g := w.g, insts := s.insts.set i (w.inst, w.el) }
  | Op.disable i =>
    match s.insts[i]? with
    | none => s
    | some (inst, el) =>
      let w := disable ⟨s.g, inst, el⟩
      { g := w.g, insts := s.insts.set i (w.inst, w.el) }
  | Op.destroy i =>
    match s.insts[i]? with
    | none => s
    | some (inst, el) =>
      let w := destroy ⟨s.g, inst, el⟩
      { g := w.g, insts := s.insts.set i (w.inst, w.el) }

/-- Run a sequence of operations from the initial system. -/
def runOps (ops : List Op) : Sys := ops.foldl stepOp initSys

/-- The Filter Registry invariant: the shared container is in the document
exactly when the live-instance set is non-empty. -/
def RegistryInv (s : Sys) : Prop :=
  s.g.registryPresent = true ↔ s.g.instances ≠ []

/-- A sample state for exercising `update` in fallback mode: a Firefox
environment, an instance whose element already carries one fallback
background layer from construction. -/
def firefoxEnv : Env := { isFirefox := true, backdropFilterSupported := true }

/-- The fallback background child inserted at construction in the sample
state. -/
def sampleFbChild : Child :=
  { tok := 5, kind := NodeKind.firefoxBg, style := { position := "absolute", zIndex := "0" } }

/-- The sample element: one fallback background child. -/
def sampleFbElement : Element := { children := [sampleFbChild] }

/-- The sample combined state of globals, instance and element after a
construction in fallback mode. -/
def sampleFbW : W where
  g := { registryPresent := true, defs := [(0, mkFilter "cb-b" defaults)],
         instances := [1], nextTok := 6 }
  inst := { tok := 1, id := "cb-b", options := defaults, originalStyles := ⟨"", "", "", ""⟩,
            filter := some 0, firefoxBg := some 5 }
  el := sampleFbElement

/-- The element the sample document exposes under the selector `.card`. -/
def cardElement : Element := {}

/-- A document query resolving exactly the selector `.card`. -/
def cardQuery : String → Option Element :=
  fun s => if s = ".card" then some cardElement else none

/-- An environment in which the backdrop-filter mechanism is supported. -/
def supportedEnv : Env := { isFirefox := false, backdropFilterSupported := true }

/-- The partial configuration of the concrete scenario. -/
def cardConfig : PartialOptions :=
  { redOffset := some 8, blueOffset := some (-8), blurAmount := some 5,
    addOverlay := some false, addNoise := some false }

/-! ### Preservation lemmas about the per-instance pipeline -/

theorem addFirefoxFallback_options (env : Env) (w : W) :
    (addFirefoxFallback env w).inst.options = w.inst.options := by
  unfold addFirefoxFallback
  split <;> rfl

theorem applyStyles_options (env : Env) (w : W) :
    (applyStyles env w).inst.options = w.inst.options := by
  unfold applyStyles
  exact addFirefoxFallback_options env _

theorem createFilter_options (w : W) :
    (createFilter w).inst.options = w.inst.options := rfl

theorem constructValid_options (env : Env) (g0 : Globals) (el0 : Element)
    (popts : PartialOptions) (i : String) :
    (constructValid env g0 el0 popts i).inst.options = mergeOptions defaults popts := by
  unfold constructValid addOverlays
  dsimp only
  split
  · rw [applyStyles_options, createFilter_options]
  · rw [applyStyles_options, createFilter_options]

/-- C1: for every invalid target (a selector string matching no element, or a
null/undefined element reference), the constructor throws the invalid-target
error synchronously, and the process-wide state — the shared filter container
and the instance set — is returned exactly as it was: no partial instance is
registered. -/
theorem construct_invalid_target_throws_without_mutation
    (env : Env) (query : String → Option Element) (g : Globals)
    (target : ElementRef) (popts : PartialOptions) (i : String)
    (h : resolveTarget query target = none) :
    construct env query g target popts i = (g, Except.error CBError.invalidTarget) := by
  unfold construct
  rw [h]

theorem construct_invalid_target_throws_without_mutation_witness :
    resolveTarget (fun _ => none) (ElementRef.selector ".card") = none ∧
    construct ⟨false, true⟩ (fun _ => none) {} (ElementRef.selector ".card") {} "cb-0"
      = ({}, Except.error CBError.invalidTarget) :=
  ⟨rfl, construct_invalid_target_throws_without_mutation _ _ _ _ _ _ rfl⟩

/-- C2: for every valid target and every partial configuration, construction
succeeds (returns `ok`, never throws), and the instance's effective
configuration is the default set overridden field-by-field by the supplied
partial configuration; `Options` has no optional field, so every field is
populated. -/
theorem construct_valid_target_merges_defaults
    (env : Env) (query : String → Option Element) (g : Globals)
    (target : ElementRef) (popts : PartialOptions) (i : String) (el : Element)
    (h : resolveTarget query target = some el) :
    ∃ g' inst el',
      construct env query g target popts i = (g', Except.ok (inst, el'))
        ∧ inst.options = mergeOptions defaults popts := by
  unfold construct
  rw [h]
  exact ⟨_, _, _, rfl, constructValid_options env g el popts i⟩

theorem construct_valid_target_merges_defaults_witness :
    resolveTarget (fun _ => some {}) (ElementRef.selector ".card") = some {} ∧
    ∃ g' inst el',
      construct ⟨false, true⟩ (fun _ => some {}) {} (ElementRef.selector ".card")
          { blurAmount := some 7 } "cb-0"
        = (g', Except.ok (inst, el'))
        ∧ inst.options = mergeOptions defaults { blurAmount := some 7 } :=
  ⟨rfl, construct_valid_target_merges_defaults _ _ _ _ _ _ _ rfl⟩

/-! ### Idempotence of destroy -/

theorem removeFilterNode_nil (o : Option Nat) : removeFilterNode o [] = [] := by
  cases o <;> rfl

theorem removeFilterNode_idem (o : Option Nat) (l : List (Nat × Filter)) :
    removeFilterNode o (removeFilterNode o l) = removeFilterNode o l := by
  cases o <;> simp [removeFilterNode, List.filter_filter]

theorem removeChildNode_idem (o : Option Nat) (l : List Child) :
    removeChildNode o (removeChildNode o l) = removeChildNode o l := by
  cases o <;> simp [removeChildNode, List.filter_filter]

theorem removeChildNode_comm (o o' : Option Nat) (l : List Child) :
    removeChildNode o (removeChildNode o' l) = removeChildNode o' (removeChildNode o l) := by
  cases o <;> cases o' <;> simp [removeChildNode, List.filter_filter, Bool.and_comm]

theorem releaseIfEmpty_instances (g : Globals) :
    (releaseIfEmpty g).instances = g.instances := by
  unfold releaseIfEmpty
  split
  · split <;> rfl
  · rfl

theorem releaseIfEmpty_empty_not_present (g : Globals)
    (h : (releaseIfEmpty g).instances.isEmpty = true) :
    (releaseIfEmpty g).registryPresent = false := by
  rw [releaseIfEmpty_instances] at h
  unfold releaseIfEmpty
  rw [if_pos h]
  split
  · rfl
  · rename_i h2
    simpa using h2

theorem releaseIfEmpty_defs (g : Globals) :
    (releaseIfEmpty g).defs = g.defs ∨ (releaseIfEmpty g).defs = [] := by
  unfold releaseIfEmpty
  split
  · split
    · exact Or.inr rfl
    · exact Or.inl rfl
  · exact Or.inl rfl

theorem releaseIfEmpty_id (g : Globals)
    (h : g.instances.isEmpty = true → g.registryPresent = false) :
    releaseIfEmpty g = g := by
  unfold releaseIfEmpty
  split
  · rename_i he
    simp [h he]
  · rfl

/-- The unfolding of `destroy` as a plain record equation. -/
theorem destroy_eq (w : W) :
    destroy w =
      ⟨releaseIfEmpty
        { w.g with
          defs := removeFilterNode w.inst.filter w.g.defs
          instances := w.g.instances.erase w.inst.tok }
      , w.inst
      , { w.el with
          style := restoreStyle w.el.style w.inst.originalStyles
          children := removeChildNode w.inst.firefoxBg
            (removeChildNode w.inst.overlayContainer w.el.children) }⟩ := rfl

theorem destroy_g_instances (w : W) :
    (destroy w).g.instances = w.g.instances.erase w.inst.tok := by
  rw [destroy_eq]
  exact releaseIfEmpty_instances _

/-- C4: `destroy` is idempotent — calling it twice on an instance produces the
same end state (element styles and children, filter container, instance set)
as calling it once, with no error and no duplicate side effect.  The
hypothesis says the instance set holds no duplicate entries, which the `Set`
semantics of `ChromaticBlur.instances` guarantees. -/
theorem destroy_idempotent (w : W) (h : w.g.instances.Nodup) :
    destroy (destroy w) = destroy w := by
  have hch : removeChildNode (destroy w).inst.firefoxBg
      (removeChildNode (destroy w).inst.overlayContainer (destroy w).el.children)
      = (destroy w).el.children := by
    show removeChildNode w.inst.firefoxBg
      (removeChildNode w.inst.overlayContainer (destroy w).el.children)
      = (destroy w).el.children
    rw [destroy_eq]
    dsimp only
    rw [removeChildNode_comm w.inst.overlayContainer w.inst.firefoxBg,
      removeChildNode_idem, removeChildNode_idem]
  have hdefs : removeFilterNode (destroy w).inst.filter (destroy w).g.defs
      = (destroy w).g.defs := by
    show removeFilterNode w.inst.filter (destroy w).g.defs = (destroy w).g.defs
    rcases releaseIfEmpty_defs
        { w.g with
          defs := removeFilterNode w.inst.filter w.g.defs
          instances := w.g.instances.erase w.inst.tok } with hd | hd
    · rw [destroy_eq]
      dsimp only
      rw [hd]
      exact removeFilterNode_idem _ _
    · rw [destroy_eq]
      dsimp only
      rw [hd]
      exact removeFilterNode_nil _
  have herase : (destroy w).g.instances.erase (destroy w).inst.tok
      = (destroy w).g.instances := by
    show (destroy w).g.instances.erase w.inst.tok = (destroy w).g.instances
    rw [destroy_g_instances]
    exact List.erase_of_not_mem h.not_mem_erase
  have hstyle : restoreStyle (destroy w).el.style (destroy w).inst.originalStyles
      = (destroy w).el.style := rfl
  have hempty : (destroy w).g.instances.isEmpty = true →
      (destroy w).g.registryPresent = false := by
    rw [destroy_eq]
    exact releaseIfEmpty_empty_not_present _
  rw [destroy_eq (destroy w), hch, hdefs, herase, hstyle]
  show W.mk (releaseIfEmpty (destroy w).g) (destroy w).inst (destroy w).el = destroy w
  rw [releaseIfEmpty_id _ hempty]

theorem destroy_idempotent_witness :
    ([0] : List Nat).Nodup ∧
      destroy (destroy ⟨{ registryPresent := true, instances := [0], nextTok := 3 },
        { tok := 0, id := "cb-0", options := defaults
          originalStyles := ⟨"", "", "", ""⟩, filter := some 1 }, {}⟩)
      = destroy ⟨{ registryPresent := true, instances := [0], nextTok := 3 },
        { tok := 0, id := "cb-0", options := defaults
          originalStyles := ⟨"", "", "", ""⟩, filter := some 1 }, {}⟩ :=
  ⟨by decide, destroy_idempotent _ (by decide)⟩

/-! ### Style effects of the pipeline -/

theorem addFirefoxFallback_originalStyles (env : Env) (w : W) :
    (addFirefoxFallback env w).inst.originalStyles = w.inst.originalStyles := by
  unfold addFirefoxFallback
  split <;> rfl

theorem applyStyles_originalStyles (env : Env) (w : W) :
    (applyStyles env w).inst.originalStyles = w.inst.originalStyles := by
  unfold applyStyles
  exact addFirefoxFallback_originalStyles env _

theorem constructValid_originalStyles (env : Env) (g0 : Globals) (el0 : Element)
    (popts : PartialOptions) (i : String) :
    (constructValid env g0 el0 popts i).inst.originalStyles =
      ⟨el0.style.backdropFilter, el0.style.webkitBackdropFilter,
        el0.style.position, el0.style.overflow⟩ := by
  unfold constructValid addOverlays
  dsimp only
  split
  · rw [applyStyles_originalStyles]
    rfl
  · rw [applyStyles_originalStyles]
    rfl

/-- C5: capturing the four tracked style properties before construction and
calling `destroy` immediately after construction restores them exactly,
including originally-empty inline properties. -/
theorem construct_destroy_restores_tracked_styles (env : Env) (g0 : Globals)
    (el0 : Element) (popts : PartialOptions) (i : String) :
    ((destroy (constructValid env g0 el0 popts i)).el.style.backdropFilter
        = el0.style.backdropFilter)
    ∧ ((destroy (constructValid env g0 el0 popts i)).el.style.webkitBackdropFilter
        = el0.style.webkitBackdropFilter)
    ∧ ((destroy (constructValid env g0 el0 popts i)).el.style.position
        = el0.style.position)
    ∧ ((destroy (constructValid env g0 el0 popts i)).el.style.overflow
        = el0.style.overflow) := by
  have hd : (destroy (constructValid env g0 el0 popts i)).el.style
      = restoreStyle (constructValid env g0 el0 popts i).el.style
          (constructValid env g0 el0 popts i).inst.originalStyles := rfl
  rw [hd, constructValid_originalStyles]
  exact ⟨rfl, rfl, rfl, rfl⟩

theorem addFirefoxFallback_position (env : Env) (w : W) :
    (addFirefoxFallback env w).el.style.position = w.el.style.position := by
  unfold addFirefoxFallback
  split <;> rfl

theorem addFirefoxFallback_boxShadow (env : Env) (w : W) :
    (addFirefoxFallback env w).el.style.boxShadow =
      if fallbackMode env then fallbackBoxShadow w.inst.options.borderColor
      else w.el.style.boxShadow := by
  unfold addFirefoxFallback
  split <;> rename_i hh <;> simp [hh]

theorem addFirefoxFallback_backgroundColor (env : Env) (w : W) :
    (addFirefoxFallback env w).el.style.backgroundColor =
      if fallbackMode env then "rgba(255, 255, 255, 0.85)"
      else w.el.style.backgroundColor := by
  unfold addFirefoxFallback
  split <;> rename_i hh <;> simp [hh]

theorem applyStyles_position (env : Env) (w : W) :
    (applyStyles env w).el.style.position =
      if computedPosition w.el = "static" then "relative" else w.el.style.position := by
  simp only [applyStyles]
  rw [addFirefoxFallback_position]
  by_cases hc : computedPosition w.el = "static" <;> simp [hc]

theorem applyStyles_boxShadow (env : Env) (w : W) :
    (applyStyles env w).el.style.boxShadow =
      if fallbackMode env then fallbackBoxShadow w.inst.options.borderColor
      else insetBoxShadow w.inst.options.borderColor := by
  simp only [applyStyles]
  rw [addFirefoxFallback_boxShadow]
  by_cases hf : fallbackMode env = true
  · simp [hf]
  · simp [hf]
    split <;> rfl

theorem applyStyles_backgroundColor (env : Env) (w : W) :
    (applyStyles env w).el.style.backgroundColor =
      if fallbackMode env then "rgba(255, 255, 255, 0.85)"
      else w.el.style.backgroundColor := by
  simp only [applyStyles]
  rw [addFirefoxFallback_backgroundColor]
  by_cases hf : fallbackMode env = true
  · simp [hf]
  · simp [hf]
    split <;> rfl

theorem addOverlays_el_style (w : W) : (addOverlays w).el.style = w.el.style := rfl

theorem constructValid_position (env : Env) (g0 : Globals) (el0 : Element)
    (popts : PartialOptions) (i : String) :
    (constructValid env g0 el0 popts i).el.style.position =
      if computedPosition el0 = "static" then "relative" else el0.style.position := by
  unfold constructValid
  dsimp only
  split
  · rw [addOverlays_el_style, applyStyles_position]
    rfl
  · rw [applyStyles_position]
    rfl

theorem update_position (env : Env) (w : W) (popts : PartialOptions) :
    (update env w popts).el.style.position =
      if computedPosition w.el = "static" then "relative" else w.el.style.position := by
  unfold update
  dsimp only
  rw [applyStyles_position]
  rfl

/-- C9: whenever styling is applied — by `_applyStyles` itself, hence both at
construction and on every update — the element's inline position is set to
`relative` exactly when its computed (not inline) position is `static`; an
element whose computed position is non-static keeps its inline position
untouched. -/
theorem position_set_iff_computed_static (env : Env) (w : W) (g0 : Globals)
    (el0 : Element) (popts : PartialOptions) (i : String) :
    ((applyStyles env w).el.style.position =
      if computedPosition w.el = "static" then "relative" else w.el.style.position)
    ∧ ((constructValid env g0 el0 popts i).el.style.position =
      if computedPosition el0 = "static" then "relative" else el0.style.position)
    ∧ ((update env w popts).el.style.position =
      if computedPosition w.el = "static" then "relative" else w.el.style.position) :=
  ⟨applyStyles_position env w, constructValid_position env g0 el0 popts i,
    update_position env w popts⟩

theorem constructValid_boxShadow (env : Env) (g0 : Globals) (el0 : Element)
    (popts : PartialOptions) (i : String) :
    (constructValid env g0 el0 popts i).el.style.boxShadow =
      if fallbackMode env then fallbackBoxShadow (mergeOptions defaults popts).borderColor
      else insetBoxShadow (mergeOptions defaults popts).borderColor := by
  unfold constructValid
  dsimp only
  split
  · rw [addOverlays_el_style, applyStyles_boxShadow]
    rfl
  · rw [applyStyles_boxShadow]
    rfl

theorem constructValid_backgroundColor (env : Env) (g0 : Globals) (el0 : Element)
    (popts : PartialOptions) (i : String) :
    (constructValid env g0 el0 popts i).el.style.backgroundColor =
      if fallbackMode env then "rgba(255, 255, 255, 0.85)"
      else el0.style.backgroundColor := by
  unfold constructValid
  dsimp only
  split
  · rw [addOverlays_el_style, applyStyles_backgroundColor]
    rfl
  · rw [applyStyles_backgroundColor]
    rfl

/-- C10 (implicit behaviour): `destroy` restores only the four snapshotted
properties, so after construction followed by destruction the element's
inline box-shadow still holds the value applied at construction (the inset
border, or the fallback variant), and in fallback mode the background color
still holds the semi-transparent substitute, instead of reverting. -/
theorem destroy_leaks_box_shadow_and_background (env : Env) (g0 : Globals)
    (el0 : Element) (popts : PartialOptions) (i : String) :
    ((destroy (constructValid env g0 el0 popts i)).el.style.boxShadow =
      if fallbackMode env then fallbackBoxShadow (mergeOptions defaults popts).borderColor
      else insetBoxShadow (mergeOptions defaults popts).borderColor)
    ∧ ((destroy (constructValid env g0 el0 popts i)).el.style.backgroundColor =
      if fallbackMode env then "rgba(255, 255, 255, 0.85)"
      else el0.style.backgroundColor) := by
  have hbs : (destroy (constructValid env g0 el0 popts i)).el.style.boxShadow
      = (constructValid env g0 el0 popts i).el.style.boxShadow := rfl
  have hbg : (destroy (constructValid env g0 el0 popts i)).el.style.backgroundColor
      = (constructValid env g0 el0 popts i).el.style.backgroundColor := rfl
  rw [hbs, hbg, constructValid_boxShadow, constructValid_backgroundColor]
  exact ⟨rfl, rfl⟩

/-! ### Registry lifecycle invariant -/

theorem addFirefoxFallback_g_reg (env : Env) (w : W) :
    (addFirefoxFallback env w).g.registryPresent = w.g.registryPresent := by
  unfold addFirefoxFallback
  split <;> rfl

theorem addFirefoxFallback_g_insts (env : Env) (w : W) :
    (addFirefoxFallback env w).g.instances = w.g.instances := by
  unfold addFirefoxFallback
  split <;> rfl

theorem applyStyles_g_reg (env : Env) (w : W) :
    (applyStyles env w).g.registryPresent = w.g.registryPresent :=
  addFirefoxFallback_g_reg env _

theorem applyStyles_g_insts (env : Env) (w : W) :
    (applyStyles env w).g.instances = w.g.instances :=
  addFirefoxFallback_g_insts env _

theorem addOverlays_g_reg (w : W) :
    (addOverlays w).g.registryPresent = w.g.registryPresent := rfl

theorem addOverlays_g_insts (w : W) :
    (addOverlays w).g.instances = w.g.instances := rfl

theorem createFilter_g_reg (w : W) :
    (createFilter w).g.registryPresent = w.g.registryPresent := rfl

theorem createFilter_g_insts (w : W) :
    (createFilter w).g.instances = w.g.instances := rfl

theorem ensureSVGContainer_reg (g : Globals) :
    (ensureSVGContainer g).registryPresent = true := by
  unfold ensureSVGContainer
  split
  · assumption
  · rfl

theorem ensureSVGContainer_insts (g : Globals) :
    (ensureSVGContainer g).instances = g.instances := by
  unfold ensureSVGContainer
  split <;> rfl

theorem constructValid_g_registry (env : Env) (g0 : Globals) (el0 : Element)
    (popts : PartialOptions) (i : String) :
    (constructValid env g0 el0 popts i).g.registryPresent = true := by
  unfold constructValid
  dsimp only
  split
  · rw [addOverlays_g_reg, applyStyles_g_reg, createFilter_g_reg, ensureSVGContainer_reg]
  · rw [applyStyles_g_reg, createFilter_g_reg, ensureSVGContainer_reg]

theorem constructValid_g_instances (env : Env) (g0 : Globals) (el0 : Element)
    (popts : PartialOptions) (i : String) :
    (constructValid env g0 el0 popts i).g.instances = g0.nextTok :: g0.instances := by
  unfold constructValid
  dsimp only
  split
  · rw [addOverlays_g_insts, applyStyles_g_insts, createFilter_g_insts, ensureSVGContainer_insts]
  · rw [applyStyles_g_insts, createFilter_g_insts, ensureSVGContainer_insts]

theorem update_g_reg (env : Env) (w : W) (popts : PartialOptions) :
    (update env w popts).g.registryPresent = w.g.registryPresent := by
  unfold update
  dsimp only
  rw [applyStyles_g_reg, createFilter_g_reg]

theorem update_g_insts (env : Env) (w : W) (popts : PartialOptions) :
    (update env w popts).g.instances = w.g.instances := by
  unfold update
  dsimp only
  rw [applyStyles_g_insts, createFilter_g_insts]

theorem destroy_g_registry (w : W) :
    (destroy w).g.registryPresent =
      if (w.g.instances.erase w.inst.tok).isEmpty then false
      else w.g.registryPresent := by
  rw [destroy_eq]
  unfold releaseIfEmpty
  dsimp only
  split
  · split
    · rfl
    · rename_i h2
      simpa using h2
  · rfl

theorem stepOp_registryInv (s : Sys) (op : Op) (h : RegistryInv s) :
    RegistryInv (stepOp s op) := by
  cases op with
  | construct env target popts =>
    cases target with
    | none => exact h
    | some el =>
      simp only [stepOp, RegistryInv]
      rw [constructValid_g_registry, constructValid_g_instances]
      simp
  | update i env popts =>
    simp only [stepOp]
    cases hs : s.insts[i]? with
    | none => exact h
    | some pr =>
      obtain ⟨inst, el⟩ := pr
      simp only [RegistryInv, update_g_reg, update_g_insts]
      exact h
  | enable i =>
    simp only [stepOp]
    cases hs : s.insts[i]? with
    | none => exact h
    | some pr =>
      obtain ⟨inst, el⟩ := pr
      exact h
  | disable i =>
    simp only [stepOp]
    cases hs : s.insts[i]? with
    | none => exact h
    | some pr =>
      obtain ⟨inst, el⟩ := pr
      exact h
  | destroy i =>
    simp only [stepOp]
    cases hs : s.insts[i]? with
    | none => exact h
    | some pr =>
      obtain ⟨inst, el⟩ := pr
      simp only [RegistryInv, destroy_g_registry, destroy_g_instances]
      by_cases hemp : ((s.g.instances.erase inst.tok).isEmpty : Bool) = true
      · rw [if_pos hemp]
        rw [List.isEmpty_iff] at hemp
        simp [hemp]
      · rw [if_neg hemp]
        rw [List.isEmpty_iff] at hemp
        have hne : s.g.instances ≠ [] := by
          intro hnil
          exact hemp (by rw [hnil]; rfl)
        exact iff_of_true (h.mpr hne) hemp

theorem foldl_registryInv (ops : List Op) :
    ∀ s, RegistryInv s → RegistryInv (ops.foldl stepOp s) := by
  induction ops with
  | nil => intro s h; exact h
  | cons op rest ih => intro s h; exact ih _ (stepOp_registryInv s op h)

/-- C3: in every state reachable by any sequence of construct, update, enable,
disable and destroy operations, the shared Filter Registry container is in the
document exactly when at least one tracked instance is live — in particular
after N constructions and all N destructions, in any order, the container is
absent, and while some instance remains it is present.  (The container is
modelled as a presence flag: the code addresses it by the fixed document id
`chromatic-blur-filters`, so at most one exists.) -/
theorem registry_present_iff_live_instances (ops : List Op) :
    ((runOps ops).g.registryPresent = true) ↔ (runOps ops).g.instances ≠ [] :=
  foldl_registryInv ops initSys (by simp [RegistryInv, initSys])

/-! ### Filter replacement on update -/

theorem addFirefoxFallback_g_defs (env : Env) (w : W) :
    (addFirefoxFallback env w).g.defs = w.g.defs := by
  unfold addFirefoxFallback
  split <;> rfl

theorem applyStyles_g_defs (env : Env) (w : W) :
    (applyStyles env w).g.defs = w.g.defs :=
  addFirefoxFallback_g_defs env _

theorem update_defs (env : Env) (w : W) (popts : PartialOptions) :
    (update env w popts).g.defs
      = removeFilterNode w.inst.filter w.g.defs
        ++ [(w.g.nextTok, mkFilter w.inst.id (mergeOptions w.inst.options popts))] := by
  unfold update
  dsimp only
  rw [applyStyles_g_defs]
  rfl

theorem blurStds_mkFilter (i : String) (o : Options) :
    blurStds (mkFilter i o) = [o.blurAmount] := rfl

/-- C6: for a live instance whose tracked filter node is the only definition
in the shared `<defs>` bearing the instance's id, `update {blurAmount := 10}`
leaves exactly one filter definition with that id in the document — the old
node is removed, not duplicated — and that definition's Gaussian-blur stages
are exactly one stage with standard deviation 10. -/
theorem update_blur_ten_unique_definition (env : Env) (w : W) (t : Nat)
    (h1 : w.inst.filter = some t)
    (h2 : ∀ q ∈ w.g.defs, q.2.id = w.inst.id → q.1 = t) :
    ((update env w { blurAmount := some 10 }).g.defs.countP
        (fun q => q.2.id == w.inst.id) = 1)
    ∧ ∀ q ∈ (update env w { blurAmount := some 10 }).g.defs,
        q.2.id = w.inst.id → blurStds q.2 = [10] := by
  have hd := update_defs env w { blurAmount := some 10 }
  have hrm : ∀ q ∈ removeFilterNode w.inst.filter w.g.defs, ¬ q.2.id = w.inst.id := by
    intro q hq hcontra
    rw [h1] at hq
    simp only [removeFilterNode] at hq
    have hmem := List.mem_filter.mp hq
    have hne : q.1 ≠ t := by simpa using hmem.2
    exact hne (h2 q hmem.1 hcontra)
  constructor
  · rw [hd, List.countP_append]
    have hz : (removeFilterNode w.inst.filter w.g.defs).countP
        (fun q => q.2.id == w.inst.id) = 0 := by
      rw [List.countP_eq_zero]
      intro q hq
      simpa using hrm q hq
    rw [hz]
    simp [mkFilter]
  · intro q hq hid
    rw [hd] at hq
    rcases List.mem_append.mp hq with hql | hqr
    · exact absurd hid (hrm q hql)
    · have hq' : q = (w.g.nextTok,
          mkFilter w.inst.id (mergeOptions w.inst.options { blurAmount := some 10 })) := by
        simpa using hqr
      rw [hq']
      rfl

theorem update_blur_ten_unique_definition_witness :
    (({ tok := 0, id := "cb-a", options := defaults, originalStyles := ⟨"", "", "", ""⟩,
        filter := some 1 } : Instance).filter = some 1)
    ∧ (∀ q ∈ ([(1, mkFilter "cb-a" defaults)] : List (Nat × Filter)),
        q.2.id = "cb-a" → q.1 = 1)
    ∧ (((update ⟨false, true⟩
          ⟨{ registryPresent := true, defs := [(1, mkFilter "cb-a" defaults)],
             instances := [0], nextTok := 2 },
            { tok := 0, id := "cb-a", options := defaults, originalStyles := ⟨"", "", "", ""⟩,
              filter := some 1 }, {}⟩ { blurAmount := some 10 }).g.defs.countP
          (fun q => q.2.id == "cb-a") = 1)
      ∧ ∀ q ∈ (update ⟨false, true⟩
          ⟨{ registryPresent := true, defs := [(1, mkFilter "cb-a" defaults)],
             instances := [0], nextTok := 2 },
            { tok := 0, id := "cb-a", options := defaults, originalStyles := ⟨"", "", "", ""⟩,
              filter := some 1 }, {}⟩ { blurAmount := some 10 }).g.defs,
          q.2.id = "cb-a" → blurStds q.2 = [10]) :=
  ⟨rfl, by decide,
    update_blur_ten_unique_definition ⟨false, true⟩
      ⟨{ registryPresent := true, defs := [(1, mkFilter "cb-a" defaults)],
         instances := [0], nextTok := 2 },
        { tok := 0, id := "cb-a", options := defaults, originalStyles := ⟨"", "", "", ""⟩,
          filter := some 1 }, {}⟩ 1 rfl (by decide)⟩

/-! ### Overlay and fallback nodes across update -/

theorem promoteChild_kind (c : Child) : (promoteChild c).kind = c.kind := by
  unfold promoteChild
  dsimp only
  split <;> split <;> rfl

theorem isOverlay_promoteChild (c : Child) :
    Child.isOverlay (promoteChild c) = Child.isOverlay c := by
  unfold Child.isOverlay
  rw [promoteChild_kind]

theorem countP_isOverlay_map_promote (l : List Child) :
    (l.map promoteChild).countP Child.isOverlay = l.countP Child.isOverlay := by
  rw [List.countP_map]
  induction l with
  | nil => rfl
  | cons c l ih =>
    rw [List.countP_cons, List.countP_cons, ih, Function.comp_apply, isOverlay_promoteChild]

theorem update_children (env : Env) (w : W) (popts : PartialOptions) :
    (update env w popts).el.children =
      if fallbackMode env then
        fallbackChild (w.g.nextTok + 1) :: w.el.children.map promoteChild
      else w.el.children := by
  unfold update applyStyles addFirefoxFallback
  dsimp only
  split <;> rfl

/-- C7, counterexample: in an environment detected as unsupported (here:
Firefox), `update` does *not* leave the fallback nodes untouched — reapplying
styles reruns fallback detection and inserts a second fallback background
layer, so the number of fallback children grows from 1 to 2. -/
theorem update_duplicates_fallback_node_counterexample :
    countFallback (update firefoxEnv sampleFbW {}).el = 2
    ∧ countFallback sampleFbW.el = 1 := by
  constructor
  · decide
  · decide

/-- C7, amended: `update` never touches the overlay nodes (their count is
unchanged in every environment), and in an environment detected as supported
it leaves the element's children entirely untouched; in an environment
detected as unsupported, however, each `update` inserts one additional
fallback background layer as the element's first child (re-promoting the
existing children), rather than leaving fallback nodes untouched. -/
theorem update_children_effect (env : Env) (w : W) (popts : PartialOptions) :
    (countOverlay (update env w popts).el = countOverlay w.el)
    ∧ ((update env w popts).el.children =
        if fallbackMode env then
          fallbackChild (w.g.nextTok + 1) :: w.el.children.map promoteChild
        else w.el.children) := by
  refine ⟨?_, update_children env w popts⟩
  unfold countOverlay
  rw [update_children]
  by_cases hf : fallbackMode env = true
  · rw [if_pos hf, List.countP_cons]
    rw [countP_isOverlay_map_promote]
    rfl
  · rw [if_neg hf]

/-! ### Concrete construction scenario -/

/-- C8: constructing on `'.card'` with `{redOffset: 8, blueOffset: -8,
blurAmount: 5, addNoise: false, addOverlay: false}` succeeds and produces a
single filter definition whose red-channel offset stage uses dx 8, whose
blue-channel offset stage uses dx -8, whose Gaussian blur uses standard
deviation 5, whose turbulence uses the default frequency 0.001 and whose
displacement map uses the default scale 50 — and inserts zero overlay child
nodes into the element. -/
theorem create_card_scenario :
    ∃ g' inst el' tok f,
      construct supportedEnv cardQuery {} (ElementRef.selector ".card") cardConfig "cb-1"
        = (g', Except.ok (inst, el'))
      ∧ g'.defs = [(tok, f)]
      ∧ offsetDxs "redOffset" f = [8]
      ∧ offsetDxs "blueOffset" f = [-8]
      ∧ blurStds f = [5]
      ∧ turbulenceFreqs f = [1/1000]
      ∧ displacementScales f = [50]
      ∧ countOverlay el' = 0 := by
  exact ⟨_, _, _, _, _, rfl, rfl, rfl, rfl, rfl, rfl, rfl, rfl⟩

end ChromaticBlur
